import Mathlib

/-!
Shallow embedding of the multi-provider authentication routes of the
jellyseerr repository (`src/pages/settings/jellyfin.tsx`, auth routes part):
the `/plex`, `/jellyfin`, `/local`, `/reset-password/:guid` handlers, their
data model (the persisted `User` table, the settings singleton) and the
external provider clients (Plex tv API, Jellyfin API) as capability
records.  Databases are lists of users in insertion order; `getOne` /
`findOne` on a query is the first user in table order satisfying the
query's predicate; `save` of a fresh entity appends with the next id,
`save` of an existing one replaces by primary key.
-/

namespace Auth

/-- Bitmask value of `Permission.ADMIN` from `@server/lib/permissions`. -/
def adminPermission : Nat := 2

/-- Persisted `User` entity: the fields the auth routes read or write.
Nullable columns are `Option`s; `username` (the local display name) is a
string whose empty value stands for the cleared state, as the code writes
the empty string into it.  Dates are modelled as natural timestamps. -/
structure User where
  id : Nat := 0
  email : String := ""
  password : Option String := none
  permissions : Nat := 0
  avatar : String := ""
  username : String := ""
  plexId : Option Nat := none
  plexToken : Option String := none
  plexUsername : Option String := none
  jellyfinUserId : Option String := none
  jellyfinUsername : Option String := none
  jellyfinAuthToken : Option String := none
  jellyfinDeviceId : Option String := none
  resetPasswordGuid : Option String := none
  recoveryLinkExpirationDate : Option Nat := none
deriving Repr, DecidableEq

/-- The user table: rows in insertion order plus the next primary key the
database will assign (`id` is an auto-increment primary key starting at 1). -/
structure DB where
  users : List User
  nextId : Nat
deriving Repr, DecidableEq

def DB.empty : DB := ⟨[], 1⟩

/-- Row count, `userRepository.count()`. -/
def DB.count (db : DB) : Nat := db.users.length

/-- Lookup (`findOne`, `getOne`) over an arbitrary predicate: first row
in table order that satisfies it. -/
def DB.findWhere (db : DB) (p : User → Bool) : Option User :=
  db.users.find? p

/-- Lookup by primary key, `findOneBy` on the id. -/
def DB.findById (db : DB) (i : Nat) : Option User :=
  db.findWhere (fun u => u.id == i)

/-- Persisting a freshly constructed `new User(...)`: the database
assigns the next id and appends the row; returns the persisted entity. -/
def DB.insert (db : DB) (u : User) : User × DB :=
  let u' := { u with id := db.nextId }
  (u', ⟨db.users ++ [u'], db.nextId + 1⟩)

/-- Persisting an already-loaded entity: replace by primary key. -/
def DB.update (db : DB) (u : User) : DB :=
  ⟨db.users.map (fun v => if v.id == u.id then u else v), db.nextId⟩

/-- Jellyfin section of the settings singleton.  `externalHostname` may be
unset; the code tests `externalHostname && externalHostname.length > 0`,
so the empty string models the unset state. -/
structure JellyfinSettings where
  hostname : String := ""
  externalHostname : String := ""
  serverId : String := ""
deriving Repr, DecidableEq

/-- Main section of the settings singleton (the flags the routes read). -/
structure MainSettings where
  newPlexLogin : Bool := true
  localLogin : Bool := true
  defaultPermissions : Nat := 32
deriving Repr, DecidableEq

structure Settings where
  main : MainSettings
  jellyfin : JellyfinSettings
deriving Repr, DecidableEq

/-- ASCII lowering of one character, the fragment of JavaScript
`toLowerCase()` relevant to the emails this code compares. -/
def charToLower (c : Char) : Char :=
  if 65 ≤ c.toNat ∧ c.toNat ≤ 90 then Char.ofNat (c.toNat + 32) else c

/-- JavaScript `s.toLowerCase()` on the ASCII range. -/
def jsToLower (s : String) : String := ⟨s.data.map charToLower⟩

/-- JavaScript falsiness of an optional string field of the request body:
`undefined` and the empty string are falsy. -/
def strFalsy : Option String → Bool
  | none => true
  | some s => s == ""

/-- An HTTP outcome of a handler: `ok user` is a `200` with the user's
projection; `err status message` is the error handed to `next({...})` or
returned directly. -/
inductive Outcome where
  | ok (user : User)
  | err (status : Nat) (message : String)
deriving Repr, DecidableEq

/-- Normalized account identity returned by `plextv.getUser()`.  The code
checks `!account.id` before using the id, so `id = 0` models a missing
Plex id in the provider response. -/
structure PlexAccount where
  id : Nat
  email : String
  username : String
  authToken : String
  thumb : String
deriving Repr, DecidableEq

/-- One entry of `plexUsersResponse.MediaContainer.User` (`account.$`).
The id attribute arrives as a string that the code feeds to `parseInt`;
it is modelled as the parsed number directly.  `email` may be absent. -/
structure PlexTvUser where
  id : Nat
  email : Option String
  username : String
  thumb : String
deriving Repr, DecidableEq

/-- Capability record for the plex.tv API.  `getUser tok` resolves an auth
token to an account (or fails); `checkUserAccess ownerTok accId` is the
shared-server access check performed by a `PlexTvAPI` client constructed
with `ownerTok`; `getUsers ownerTok` lists the owner's managed users (or
fails). -/
structure PlexEnv where
  getUser : String → Option PlexAccount
  checkUserAccess : String → Nat → Bool
  getUsers : String → Option (List PlexTvUser)

/-- The user resolution step of `POST /plex`: with an authenticated
session, the session's own user; otherwise the single query
`plexId = account.id OR email = account.email.toLowerCase()`, first row
in table order (`getOne`). -/
def plexResolve (db : DB) (sessionUser : Option Nat) (account : PlexAccount) :
    Option User :=
  match sessionUser with
  | some uid => db.findById uid
  | none =>
    db.findWhere (fun u =>
      u.plexId == some account.id || u.email == jsToLower account.email)

/-- The access condition of `POST /plex` (the `if` guarding the
update/create stage): account id equals the main user's plex id, or the
resolved user is row 1 without a plex link, or the account email equals
the main user's email while the main user has no plex link, or the main
user's client grants shared-server access. -/
def plexAccessAllowed (env : PlexEnv) (account : PlexAccount)
    (mainUser : User) (user : Option User) : Bool :=
  some account.id == mainUser.plexId ||
  (match user with
   | some u => u.id == 1 && u.plexId == none
   | none => false) ||
  (account.email == mainUser.email && mainUser.plexId == none) ||
  env.checkUserAccess (mainUser.plexToken.getD "") account.id

/-- Handler of `POST /plex`.  Fails `500` on a missing token or a provider failure
(`catch` translates any thrown error to `Unable to authenticate.`);
bootstraps an admin on an empty table; otherwise loads user 1
(`findOneOrFail`, whose failure lands in the same `catch`), rejects a
missing Plex id, applies the access condition, and either refreshes the
resolved user, rejects an unimported account when `newPlexLogin` is off,
or creates a user with the default permissions. -/
def plexLogin (settings : Settings) (db : DB) (sessionUser : Option Nat)
    (authToken : Option String) (env : PlexEnv) : Outcome × DB :=
  match authToken with
  | none => (.err 500 "Authentication token required.", db)
  | some tok =>
    match env.getUser tok with
    | none => (.err 500 "Unable to authenticate.", db)
    | some account =>
      let user := plexResolve db sessionUser account
      if user == none && db.count == 0 then
        let fresh : User :=
          { email := account.email,
            plexUsername := some account.username,
            plexId := some account.id,
            plexToken := some account.authToken,
            permissions := adminPermission,
            avatar := account.thumb }
        let (u, db') := db.insert fresh
        (.ok u, db')
      else
        match db.findById 1 with
        | none => (.err 500 "Unable to authenticate.", db)
        | some mainUser =>
          if account.id == 0 then
            (.err 500 "Something went wrong. Try again.", db)
          else if plexAccessAllowed env account mainUser user then
            match user with
            | some u =>
              let u' := { u with
                plexToken := some tok,
                plexId := some account.id,
                avatar := account.thumb,
                plexUsername := some account.username }
              (.ok u', db.update u')
            | none =>
              if !settings.main.newPlexLogin then
                (.err 403 "Access denied.", db)
              else
                let fresh : User :=
                  { email := account.email,
                    plexUsername := some account.username,
                    plexId := some account.id,
                    plexToken := some account.authToken,
                    permissions := settings.main.defaultPermissions,
                    avatar := account.thumb }
                let (u, db') := db.insert fresh
                (.ok u, db')
          else
            (.err 403 "Access denied.", db)

/-- Modelled from the spec: the `gravatar-url` library (an md5-based
avatar URL constructor, not part of this repository) — "avatar (URL,
defaulted)"; modelled as an abstract URL built from the email. -/
def gravatarUrl (email : String) : String :=
  "gravatar://" ++ email

/-- Modelled from the spec: `User.passwordMatch` lives in the entity file,
not in this repository's sources — "require an existing user whose stored
password matches the supplied password (constant-time/hash comparison)";
the hash is abstracted away, so a stored password matches exactly the
supplied string, and a user without a stored password matches nothing. -/
def passwordMatch (u : User) (supplied : String) : Bool :=
  u.password == some supplied

/-- Modelled from the spec: `User.setPassword` (entity file) — stores the
password hash; with the hash abstracted away it stores the string. -/
def setPassword (u : User) (p : String) : User :=
  { u with password := some p }

/-- Getter `User.isPlexUser`: a user is a Plex user iff `plexId` is set. -/
def User.isPlexUser (u : User) : Bool :=
  u.plexId.isSome

/-- The opportunistic Plex enrichment inside `POST /local`: when the
resolved user has no Plex link and the main user is a Plex user, fetch the
main user's managed users, match by email (both sides lowercased, absent
or empty provider emails never match), and on a positive shared-server
access check copy plex id/avatar/email/username onto the user and save.
All failures and non-matches leave user and table unchanged. -/
def localPlexEnrich (db : DB) (env : PlexEnv) (mainUser : Option User)
    (user : User) : User × DB :=
  let mainTok := (mainUser.bind (fun m => m.plexToken)).getD ""
  if user.plexId == none
      && (mainUser.map (fun m => m.isPlexUser)).getD false then
    match env.getUsers mainTok with
    | none => (user, db)
    | some accounts =>
      match accounts.find? (fun a =>
          !strFalsy a.email
            && jsToLower (a.email.getD "") == jsToLower user.email) with
      | none => (user, db)
      | some a =>
        if env.checkUserAccess mainTok a.id then
          let user' := { user with
            plexId := some a.id,
            avatar := a.thumb,
            email := a.email.getD "",
            plexUsername := some a.username }
          (user', db.update user')
        else (user, db)
  else (user, db)

/-- The section of `POST /local` after the user is resolved or created:
load user 1, run the opportunistic enrichment, then the final access
re-check against the main user's Plex link, then `200` with the user. -/
def localPostAuth (db : DB) (env : PlexEnv) (user : User) : Outcome × DB :=
  let mainUser := db.findById 1
  let (user2, db2) := localPlexEnrich db env mainUser user
  let mainTok := (mainUser.bind (fun m => m.plexToken)).getD ""
  if (mainUser.map (fun m => m.isPlexUser)).getD false
      && user2.plexId.isSome
      && user2.plexId != mainUser.bind (fun m => m.plexId)
      && !env.checkUserAccess mainTok (user2.plexId.getD 0) then
    (.err 403 "Access denied.", db2)
  else
    (.ok user2, db2)

/-- Handler of `POST /local`: requires the `localLogin` flag and both fields;
resolves by lowercased email (`getOne`); bootstraps an admin on an empty
table; otherwise requires a password match (else `403`); then runs the
shared post-authentication section. -/
def localLogin (settings : Settings) (db : DB) (email password : Option String)
    (env : PlexEnv) : Outcome × DB :=
  if !settings.main.localLogin then
    (.err 500 "Password sign-in is disabled.", db)
  else if strFalsy email || strFalsy password then
    (.err 500 "You must provide both an email address and a password.", db)
  else
    let e := email.getD ""
    let p := password.getD ""
    let user0 := db.findWhere (fun u => u.email == jsToLower e)
    if user0 == none && db.count == 0 then
      let fresh : User :=
        { email := e,
          permissions := adminPermission,
          avatar := gravatarUrl e }
      let admin := setPassword fresh p
      let (user, db1) := db.insert admin
      localPostAuth db1 env user
    else
      match user0 with
      | none => (.err 403 "Access denied.", db)
      | some user =>
        if !passwordMatch user p then
          (.err 403 "Access denied.", db)
        else
          localPostAuth db env user

/-- Handler of `POST /reset-password/:guid` (`consumeReset`): validates the new
password's length, then looks the token up by `resetPasswordGuid`, then
checks `recoveryLinkExpirationDate` against the current time, then sets
the password and clears only the expiration date.  `now` is the value of
`new Date()`; the stored date passes only when it is strictly in the
future (`user.recoveryLinkExpirationDate <= new Date()` fails the reset). -/
def consumeResetPassword (db : DB) (guid : String) (password : Option String)
    (now : Nat) : Outcome × DB :=
  if strFalsy password || (password.getD "").length < 8 then
    (.err 500 "Password must be at least 8 characters long.", db)
  else
    match db.findWhere (fun u => u.resetPasswordGuid == some guid) with
    | none => (.err 500 "Invalid password reset link.", db)
    | some user =>
      match user.recoveryLinkExpirationDate with
      | none => (.err 500 "Invalid password reset link.", db)
      | some exp =>
        if exp ≤ now then
          (.err 500 "Invalid password reset link.", db)
        else
          let user' := { user with
            password := some (password.getD ""),
            recoveryLinkExpirationDate := none }
          (.ok user', db.update user')

/-- The base64 alphabet. -/
def base64Table : List Char :=
  "ABCDEFGHIJKLMNOPQRSTUVWXYZabcdefghijklmnopqrstuvwxyz0123456789+/".data

def base64Char (n : Nat) : Char := base64Table.getD n 'A'

/-- Standard base64 with padding over a byte list, three bytes per
four-character group. -/
def base64Chunks : List Nat → List Char
  | [] => []
  | [b1] =>
    [base64Char (b1 / 4), base64Char (b1 % 4 * 16), '=', '=']
  | [b1, b2] =>
    [base64Char (b1 / 4), base64Char (b1 % 4 * 16 + b2 / 16),
     base64Char (b2 % 16 * 4), '=']
  | b1 :: b2 :: b3 :: rest =>
    base64Char (b1 / 4) :: base64Char (b1 % 4 * 16 + b2 / 16) ::
      base64Char (b2 % 16 * 4 + b3 / 64) :: base64Char (b3 % 64) ::
      base64Chunks rest

/-- UTF-8 encoding of a code point, as `Buffer.from(string)` uses. -/
def utf8Bytes (c : Nat) : List Nat :=
  if c < 128 then [c]
  else if c < 2048 then [192 + c / 64, 128 + c % 64]
  else if c < 65536 then [224 + c / 4096, 128 + c / 64 % 64, 128 + c % 64]
  else [240 + c / 262144, 128 + c / 4096 % 64, 128 + c / 64 % 64,
        128 + c % 64]

/-- Node base64 rendering of the UTF-8 bytes of a string,
`Buffer.from(s).toString(..)`. -/
def base64Encode (s : String) : String :=
  ⟨base64Chunks ((s.data.map (fun ch => utf8Bytes ch.toNat)).flatten)⟩

/-- The device id derived for a username with no stored device id:
the base64 rendering of `BOT_overseerr_` followed by the username. -/
def deriveDeviceId (username : String) : String :=
  base64Encode ("BOT_overseerr_" ++ username)

/-- Normalized result of `jellyfinserver.login`: `account.User` fields,
plus the access token. -/
structure JellyfinAccount where
  userId : String
  name : String
  serverId : String
  primaryImageTag : Option String
  accessToken : String
deriving Repr, DecidableEq

/-- Outcome of the Jellyfin provider login call: success, an
`Unauthorized` error, or any other failure. -/
inductive JellyfinLoginResult where
  | success (account : JellyfinAccount)
  | unauthorized
  | failure
deriving Repr, DecidableEq

/-- Capability record for the Jellyfin server API: `login hostname
username password deviceId`. -/
structure JellyfinEnv where
  login : String → String → Option String → String → JellyfinLoginResult

/-- The request body of `POST /jellyfin`. -/
structure JellyfinBody where
  username : Option String := none
  password : Option String := none
  hostname : Option String := none
  email : Option String := none
deriving Repr, DecidableEq

/-- The connect hostname of `POST /jellyfin`: the configured hostname if
set, else the one supplied in the body. -/
def jellyfinHostname (settings : Settings) (body : JellyfinBody) : String :=
  if settings.jellyfin.hostname != "" then settings.jellyfin.hostname
  else body.hostname.getD ""

/-- The hostname used to build avatar URLs: `externalHostname` when
non-empty, else the connect hostname, with a trailing slash stripped. -/
def jellyfinAvatarHost (settings : Settings) (body : JellyfinBody) : String :=
  let h :=
    if settings.jellyfin.externalHostname != "" then
      settings.jellyfin.externalHostname
    else jellyfinHostname settings body
  if h.data.getLast? == some '/' then ⟨h.data.dropLast⟩ else h

/-- The device id used for a Jellyfin login: the one stored on the user
found under the supplied `jellyfinUsername`, else one derived from the
username. -/
def jellyfinDeviceIdFor (db : DB) (username : String) : String :=
  match db.findWhere (fun v => v.jellyfinUsername == some username) with
  | some w => w.jellyfinDeviceId.getD ""
  | none => deriveDeviceId username

/-- The avatar written on a Jellyfin sign-in: the primary-image URL when
the account has an image tag, else the static default asset. -/
def jellyfinAvatar (host : String) (account : JellyfinAccount) : String :=
  match account.primaryImageTag with
  | some tag =>
    host ++ "/Users/" ++ account.userId ++ "/Images/Primary/?tag=" ++
      tag ++ "&quality=90"
  | none => "/os_logo_square.png"

/-- Handler of `POST /jellyfin`.  Validates the username and hostname, loads user 1
(`findOneOrFail`; on an empty table this throws and the `catch` yields a
generic `500`), resolves the device id from the user stored under the
supplied `jellyfinUsername` (else derives one), calls the provider login,
resolves the local user by session or by `jellyfinUserId`, and either
refreshes the found user (persisting the supplied hostname and reported
server id into settings when no hostname was configured), rejects an
unimported account when `newPlexLogin` is off, or creates a user —
requiring a client-supplied email (`406 CREDENTIAL_ERROR_ADD_EMAIL`
otherwise, via the thrown `add_email` error). -/
def jellyfinLogin (settings : Settings) (db : DB) (sessionUser : Option Nat)
    (body : JellyfinBody) (env : JellyfinEnv) : Outcome × DB × Settings :=
  if strFalsy body.username then
    (.err 500 "You must provide an username", db, settings)
  else if settings.jellyfin.hostname == "" && strFalsy body.hostname then
    (.err 500 "No hostname provided.", db, settings)
  else
    let username := body.username.getD ""
    let hostname := jellyfinHostname settings body
    match db.findById 1 with
    | none => (.err 500 "Something went wrong.", db, settings)
    | some _mainUser =>
      let deviceId := jellyfinDeviceIdFor db username
      let jellyfinHost := jellyfinAvatarHost settings body
      match env.login hostname username body.password deviceId with
      | .unauthorized => (.err 401 "Unauthorized", db, settings)
      | .failure => (.err 500 "Something went wrong.", db, settings)
      | .success account =>
        let user :=
          match sessionUser with
          | some uid => db.findById uid
          | none =>
            db.findWhere (fun u => u.jellyfinUserId == some account.userId)
        match user with
        | some u =>
          let u1 := { u with jellyfinAuthToken := some account.accessToken }
          let u2 :=
            if u1.jellyfinUserId == none then
              { u1 with jellyfinUserId := some account.userId }
            else u1
          let u3 := { u2 with
            jellyfinDeviceId := some deviceId,
            avatar := jellyfinAvatar jellyfinHost account,
            jellyfinUsername := some account.name }
          let u4 :=
            if u3.username == account.name then { u3 with username := "" }
            else u3
          let settings' :=
            if settings.jellyfin.hostname == "" && !strFalsy body.hostname then
              { settings with jellyfin := { settings.jellyfin with
                  hostname := body.hostname.getD "",
                  serverId := account.serverId } }
            else settings
          (.ok u4, db.update u4, settings')
        | none =>
          if !settings.main.newPlexLogin then
            (.err 403 "Access denied.", db, settings)
          else if strFalsy body.email then
            (.err 406 "CREDENTIAL_ERROR_ADD_EMAIL", db, settings)
          else
            let fresh : User :=
              { email := body.email.getD "",
                jellyfinUsername := some account.name,
                jellyfinUserId := some account.userId,
                jellyfinDeviceId := some deviceId,
                jellyfinAuthToken := some account.accessToken,
                permissions := settings.main.defaultPermissions,
                avatar := jellyfinAvatar jellyfinHost account }
            let (u, db') := db.insert fresh
            (.ok u, db', settings)

/-! ### Sample data for counterexamples and witnesses -/

/-- Concrete one-user table for the reset-flow witnesses. -/
def resetSampleDb : DB :=
  ⟨[{ id := 1, email := "a@x.com", resetPasswordGuid := some "g",
      recoveryLinkExpirationDate := some 100 }], 2⟩

/-- Concrete table for the C4 witness: one user whose stored password is
`correct-pass`. -/
def localSampleDb : DB :=
  ⟨[{ id := 1, email := "admin@x.com", password := some "correct-pass",
      permissions := 2 }], 2⟩

/-- Sample provider environment that denies every remote call. -/
def plexEnvNone : PlexEnv :=
  ⟨fun _ => none, fun _ _ => false, fun _ => none⟩

/-- Sample settings with all defaults. -/
def defaultSettings : Settings := ⟨{}, {}⟩

/-- Sample Jellyfin account identity (no primary image tag). -/
def jfAccountSample : JellyfinAccount :=
  ⟨"abc", "bob", "srv1", none, "tok"⟩

/-- Sample Jellyfin environment: every login succeeds with the sample
account. -/
def jfEnvConst : JellyfinEnv :=
  ⟨fun _ _ _ _ => .success jfAccountSample⟩

/-- Sample Jellyfin request body that carries no email. -/
def jfBodyNoEmail : JellyfinBody :=
  { username := some "bob", hostname := some "http://media.local" }

/-- A table holding only a local administrator (row 1). -/
def mainOnlyDb : DB := ⟨[{ id := 1, email := "admin@x.com" }], 2⟩

/-- Sample unmatched Plex account. -/
def plexAccountSample : PlexAccount :=
  ⟨42, "guest@x.com", "guest", "at", "th"⟩

/-- Sample Plex environment resolving every token to the sample account,
with the shared-server access check failing. -/
def plexEnvDeny : PlexEnv :=
  ⟨fun _ => some plexAccountSample, fun _ _ => false, fun _ => none⟩

/-- Sample Plex environment resolving every token to the sample account,
with the shared-server access check succeeding. -/
def plexEnvAllow : PlexEnv :=
  ⟨fun _ => some plexAccountSample, fun _ _ => true, fun _ => none⟩

/-- Sample settings with new sign-ins from unimported accounts disabled. -/
def settingsNoNew : Settings := ⟨{ newPlexLogin := false }, {}⟩

/-- The sample reset table after its guid has been consumed. -/
def resetConsumedDb : DB :=
  ⟨[{ id := 1, email := "a@x.com", password := some "newpassword",
      resetPasswordGuid := some "g" }], 2⟩

/-- A fully-populated Jellyfin login body. -/
def jfBodyFull : JellyfinBody :=
  { username := some "bob", password := some "pw",
    hostname := some "http://media.local", email := some "bob@x.com" }

/-- Two-user table: row 1 matches the sample account's email, row 2
matches its Plex id. -/
def plexDualDb : DB :=
  ⟨[{ id := 1, email := "a@x.com", plexId := some 99 },
    { id := 2, email := "b@x.com", plexId := some 42 }], 3⟩

/-- Plex account whose id matches row 2 and whose lowercased email
matches row 1 of `plexDualDb`. -/
def plexAccount42 : PlexAccount := ⟨42, "A@X.com", "al", "at", "th"⟩

/-- The user created by the concrete first-run Jellyfin sign-in below. -/
def jfCreatedUser : User :=
  { id := 2, email := "bob@x.com", jellyfinUsername := some "bob",
    jellyfinUserId := some "abc",
    jellyfinDeviceId := some "Qk9UX292ZXJzZWVycl9ib2I=",
    jellyfinAuthToken := some "tok", permissions := 32,
    avatar := "/os_logo_square.png" }

/-- A table whose administrator is already linked to the sample Jellyfin
account. -/
def jfLinkedDb : DB :=
  ⟨[{ id := 1, email := "admin@x.com", jellyfinUserId := some "abc",
      jellyfinUsername := some "bob",
      jellyfinDeviceId := some "Qk9UX292ZXJzZWVycl9ib2I=" }], 2⟩

/-- The user produced by the first concrete Jellyfin run below. -/
def jfRun1User : User :=
  { id := 1, email := "admin@x.com", avatar := "/os_logo_square.png",
    jellyfinUserId := some "abc", jellyfinUsername := some "bob",
    jellyfinAuthToken := some "tok",
    jellyfinDeviceId := some "Qk9UX292ZXJzZWVycl9ib2I=" }

/-- The table after the first concrete Jellyfin run below. -/
def jfRun1Db : DB := ⟨[jfRun1User], 2⟩

/-- The settings after the first concrete Jellyfin run below (hostname
and server id persisted). -/
def jfRun1Settings : Settings :=
  ⟨{}, { hostname := "http://media.local", serverId := "srv1" }⟩

/-! ### Helper lemmas about the table operations -/

/-- Replacing, by id, the first `p`-match of the table with a
`p`-satisfying user of the same id makes the replacement the first
`p`-match. -/
theorem find?_replaceById_found (p : User → Bool) (l : List User)
    (x x' : User) (hfind : l.find? p = some x) (hid : x'.id = x.id)
    (hp : p x' = true) :
    (l.map (fun v => if v.id == x'.id then x' else v)).find? p = some x' := by
  induction l with
  | nil => simp at hfind
  | cons a t ih =>
    by_cases ha : p a
    · rw [List.find?_cons_of_pos t ha] at hfind
      injection hfind with hax
      subst hax
      have hbeq : (a.id == x'.id) = true := by simp [hid]
      simp only [List.map_cons, hbeq, if_true]
      exact List.find?_cons_of_pos _ hp
    · rw [List.find?_cons_of_neg t ha] at hfind
      simp only [List.map_cons]
      by_cases hax : (a.id == x'.id) = true
      · simp only [hax, if_true]
        exact List.find?_cons_of_pos _ hp
      · have hax' : (a.id == x'.id) = false := by simpa using hax
        simp only [hax', Bool.false_eq_true, if_false]
        rw [List.find?_cons_of_neg _ ha]
        exact ih hfind

/-- Replacing a row by id keeps an id-lookup successful (with possibly a
different row value). -/
theorem findById_replaceById_isSome (l : List User) (i : Nat) (x' : User)
    (h : (l.find? (fun v => v.id == i)).isSome = true) :
    ((l.map (fun v => if v.id == x'.id then x' else v)).find?
      (fun v => v.id == i)).isSome = true := by
  induction l with
  | nil => simp at h
  | cons a t ih =>
    simp only [List.map_cons]
    by_cases hax : (a.id == x'.id) = true
    · simp only [hax, if_true]
      by_cases hxi : (x'.id == i) = true
      · rw [List.find?_cons_of_pos (p := fun v : User => v.id == i) _ hxi]
        rfl
      · rw [List.find?_cons_of_neg (p := fun v : User => v.id == i) _
          (by simpa using hxi)]
        apply ih
        have hai : ¬((a.id == i) = true) := by
          intro hcontra
          have h1 : a.id = x'.id := by simpa using hax
          have h2 : a.id = i := by simpa using hcontra
          have h3 : (x'.id == i) = true := by simp [← h1, h2]
          have h4 : ¬((x'.id == i) = true) := by simpa using hxi
          exact h4 h3
        rwa [List.find?_cons_of_neg (p := fun v : User => v.id == i) t hai] at h
    · have hax' : (a.id == x'.id) = false := by simpa using hax
      simp only [hax', Bool.false_eq_true, if_false]
      by_cases hai : (a.id == i) = true
      · rw [List.find?_cons_of_pos (p := fun v : User => v.id == i) _ hai]
        rfl
      · rw [List.find?_cons_of_neg (p := fun v : User => v.id == i) _ hai]
        rw [List.find?_cons_of_neg (p := fun v : User => v.id == i) t hai] at h
        exact ih h

/-! ### C9: password-reset length check -/

/-- C9 (counterexample): a reset consumption with a 5-character password
is rejected with HTTP 500, not HTTP 400 as the claim states. -/
theorem C9_reset_short_password_counterexample :
    (consumeResetPassword resetSampleDb "g" (some "short") 0).1 =
        .err 500 "Password must be at least 8 characters long." ∧
      (consumeResetPassword resetSampleDb "g" (some "short") 0).1 ≠
        .err 400 "Password must be at least 8 characters long." := by
  constructor
  · rfl
  · decide

/-- C9 (amended): for every password-reset consumption call with a new
password shorter than 8 characters, the request fails with HTTP 500 and
the table is unchanged; the result is the same for every guid, table and
clock, i.e. the rejection is independent of whether the guid is valid,
expired, or unknown, happening before any token lookup. -/
theorem C9_reset_short_password_rejected_before_lookup
    (db : DB) (guid : String) (p : String) (now : Nat)
    (hlen : p.length < 8) :
    consumeResetPassword db guid (some p) now =
      (.err 500 "Password must be at least 8 characters long.", db) := by
  have hcond : (strFalsy (some p) ||
      decide (((some p : Option String).getD "").length < 8)) = true := by
    simp [strFalsy, Option.getD, hlen]
  unfold consumeResetPassword
  rw [if_pos hcond]

/-- C9 witness: the amended theorem applied at a concrete short password. -/
theorem C9_reset_short_password_witness :
    ("abc" : String).length < 8 ∧
      consumeResetPassword resetSampleDb "unknown-guid" (some "abc") 7 =
        (.err 500 "Password must be at least 8 characters long.",
          resetSampleDb) :=
  ⟨by decide,
    C9_reset_short_password_rejected_before_lookup resetSampleDb
      "unknown-guid" "abc" 7 (by decide)⟩

/-! ### C10: a consumed reset guid never succeeds again -/

/-- C10: after a successful consumption for a guid, every later
consumption attempt with that guid and a length-valid password fails with
the invalid-link error and leaves the table unchanged: the success path
cleared only the expiration date, kept the guid, and a missing expiration
date always fails the expiration check. -/
theorem C10_consumed_guid_never_succeeds
    (db : DB) (guid : String) (pw : Option String) (now : Nat)
    (u : User) (db1 : DB) (pw2 : String) (now2 : Nat)
    (h : consumeResetPassword db guid pw now = (.ok u, db1))
    (hlen : 8 ≤ pw2.length) :
    consumeResetPassword db1 guid (some pw2) now2 =
      (.err 500 "Invalid password reset link.", db1) := by
  simp only [consumeResetPassword] at h
  split at h
  · exact absurd h (by simp)
  · rename_i hguard
    split at h
    · exact absurd h (by simp)
    · rename_i user hfind
      split at h
      · exact absurd h (by simp)
      · rename_i exp hexp
        split at h
        · exact absurd h (by simp)
        · rename_i hnow
          rw [Prod.mk.injEq] at h
          obtain ⟨hu, hdb1⟩ := h
          have hne : pw2 ≠ "" := by
            intro he
            rw [he] at hlen
            simp at hlen
          have hguard2 : (strFalsy (some pw2) ||
              decide (((some pw2 : Option String).getD "").length < 8))
              = false := by
            have h8 : ¬pw2.length < 8 := by omega
            simp [strFalsy, Option.getD, hne, h8]
          have hfind' : db.users.find?
              (fun v => v.resetPasswordGuid == some guid) = some user := hfind
          have hp := List.find?_some hfind'
          have hfound :
              (db1.findWhere (fun v => v.resetPasswordGuid == some guid)) =
                some
                  { user with
                    password := some (pw.getD ""),
                    recoveryLinkExpirationDate := none } := by
            rw [← hdb1]
            exact find?_replaceById_found
              (fun v => v.resetPasswordGuid == some guid) db.users user _
              hfind' rfl hp
          have hni : ¬((strFalsy (some pw2) ||
              decide (((some pw2 : Option String).getD "").length < 8))
              = true) := by
            rw [hguard2]
            exact Bool.false_ne_true
          unfold consumeResetPassword
          rw [if_neg hni]
          rw [hfound]

/-! ### C4: local login with bad credentials -/

/-- C4: for every local login attempt on a non-empty table, if no user
carries the (lowercased) email or the stored password does not match the
supplied one, the response is HTTP 403 (`Access denied.`), never 200, and
the table is unchanged. -/
theorem C4_local_bad_credentials_403 (settings : Settings) (db : DB)
    (email password : String) (env : PlexEnv)
    (hl : settings.main.localLogin = true)
    (he : email ≠ "") (hp : password ≠ "")
    (hne : db.users ≠ [])
    (hbad : (db.findWhere (fun u => u.email == jsToLower email)).all
      (fun u => u.password != some password) = true) :
    localLogin settings db (some email) (some password) env =
      (.err 403 "Access denied.", db) := by
  have h2 : (strFalsy (some email) || strFalsy (some password)) = false := by
    simp [strFalsy, he, hp]
  have h3 : (db.count == 0) = false := by
    have hlen : db.users.length ≠ 0 := by
      intro h0
      exact hne (List.eq_nil_of_length_eq_zero h0)
    simp [DB.count, hlen]
  simp only [localLogin, hl, h2, h3, Bool.not_true, Bool.and_false,
    Bool.false_eq_true, if_false, Option.getD_some]
  cases hfind : db.findWhere (fun u => u.email == jsToLower email) with
  | none => rfl
  | some u =>
    rw [hfind] at hbad
    simp only [Option.all_some, bne_iff_ne, ne_eq, decide_eq_true_eq] at hbad
    have hpm : passwordMatch u password = false := by
      simp [passwordMatch, hbad]
    simp [hpm]

/-- C4 witness: a wrong password against the sample table yields 403. -/
theorem C4_local_bad_credentials_witness :
    localLogin defaultSettings localSampleDb (some "admin@x.com")
        (some "wrong-pass") plexEnvNone =
      (.err 403 "Access denied.", localSampleDb) :=
  C4_local_bad_credentials_403 defaultSettings localSampleDb "admin@x.com"
    "wrong-pass" plexEnvNone (by decide) (by decide) (by decide) (by decide)
    (by decide)

/-! ### C5: Jellyfin creation without an email -/

/-- C5: a Jellyfin login that authenticates against the provider, matches
no local user, and is otherwise permitted to create one (`newPlexLogin`
on) but carries no client-supplied email fails with HTTP 406
`CREDENTIAL_ERROR_ADD_EMAIL`, leaving the table and settings unchanged. -/
theorem C5_jellyfin_missing_email_406 (settings : Settings) (db : DB)
    (body : JellyfinBody) (env : JellyfinEnv) (account : JellyfinAccount)
    (husr : strFalsy body.username = false)
    (hg2 : (settings.jellyfin.hostname == "" && strFalsy body.hostname)
      = false)
    (hmain : (db.findById 1).isSome = true)
    (hlog : ∀ h w p d, env.login h w p d = .success account)
    (hnomatch : db.findWhere
      (fun u => u.jellyfinUserId == some account.userId) = none)
    (hflag : settings.main.newPlexLogin = true)
    (hemail : strFalsy body.email = true) :
    jellyfinLogin settings db none body env =
      (.err 406 "CREDENTIAL_ERROR_ADD_EMAIL", db, settings) := by
  obtain ⟨m, hm⟩ := Option.isSome_iff_exists.mp hmain
  simp only [jellyfinLogin, husr, hg2, Bool.false_eq_true, if_false, hm,
    hlog, hnomatch, hflag, Bool.not_true, hemail, if_true]

/-- C5 witness: the theorem applied at a concrete unmatched account with
no email in the body. -/
theorem C5_jellyfin_missing_email_witness :
    jellyfinLogin defaultSettings mainOnlyDb none jfBodyNoEmail jfEnvConst =
      (.err 406 "CREDENTIAL_ERROR_ADD_EMAIL", mainOnlyDb, defaultSettings) :=
  C5_jellyfin_missing_email_406 defaultSettings mainOnlyDb jfBodyNoEmail
    jfEnvConst jfAccountSample (by decide) (by decide) (by decide)
    (fun _ _ _ _ => rfl) (by decide) (by decide) (by decide)

/-- A successful id-lookup means the table is non-empty. -/
theorem count_ne_zero_of_findById (db : DB) (i : Nat) (m : User)
    (h : db.findById i = some m) : (db.count == 0) = false := by
  cases hu : db.users with
  | nil =>
    rw [DB.findById, DB.findWhere, hu] at h
    simp at h
  | cons a t =>
    simp [DB.count, hu]

/-! ### C2: denied Plex/Jellyfin logins leave the table unchanged -/

/-- C2: whenever a sessionless Plex or Jellyfin login is denied — the
Plex access condition fails, or the account is unimported while
`newPlexLogin` is off — the response is `403 Access denied.` and the user
table is returned unchanged (no row created or mutated); the Jellyfin
settings are unchanged as well. -/
theorem C2_denied_login_403_table_unchanged :
    (∀ (settings : Settings) (db : DB) (tok : String) (env : PlexEnv)
        (account : PlexAccount) (mainUser : User),
      env.getUser tok = some account →
      db.findById 1 = some mainUser →
      (account.id == 0) = false →
      plexAccessAllowed env account mainUser (plexResolve db none account)
        = false →
      plexLogin settings db none (some tok) env =
        (.err 403 "Access denied.", db)) ∧
    (∀ (settings : Settings) (db : DB) (tok : String) (env : PlexEnv)
        (account : PlexAccount) (mainUser : User),
      env.getUser tok = some account →
      db.findById 1 = some mainUser →
      (account.id == 0) = false →
      plexResolve db none account = none →
      settings.main.newPlexLogin = false →
      plexLogin settings db none (some tok) env =
        (.err 403 "Access denied.", db)) ∧
    (∀ (settings : Settings) (db : DB) (body : JellyfinBody)
        (env : JellyfinEnv) (account : JellyfinAccount),
      strFalsy body.username = false →
      (settings.jellyfin.hostname == "" && strFalsy body.hostname) = false →
      (db.findById 1).isSome = true →
      (∀ h w p d, env.login h w p d = .success account) →
      db.findWhere (fun u => u.jellyfinUserId == some account.userId)
        = none →
      settings.main.newPlexLogin = false →
      jellyfinLogin settings db none body env =
        (.err 403 "Access denied.", db, settings)) := by
  refine ⟨?_, ?_, ?_⟩
  · intro settings db tok env account mainUser hget hmain hid hdeny
    have hc := count_ne_zero_of_findById db 1 mainUser hmain
    simp only [plexLogin, hget, hc, Bool.and_false, Bool.false_eq_true,
      if_false, hmain, hid, hdeny]
  · intro settings db tok env account mainUser hget hmain hid hres hflag
    have hc := count_ne_zero_of_findById db 1 mainUser hmain
    simp only [plexLogin, hget, hc, Bool.and_false, Bool.false_eq_true,
      if_false, hmain, hid, hres, hflag, Bool.not_false, if_true]
    split
    · rfl
    · rfl
  · intro settings db body env account husr hg2 hmain hlog hnomatch hflag
    obtain ⟨m, hm⟩ := Option.isSome_iff_exists.mp hmain
    simp only [jellyfinLogin, husr, hg2, Bool.false_eq_true, if_false, hm,
      hlog, hnomatch, hflag, Bool.not_false, if_true]

/-- C2 witness: the three denial scenarios at concrete inputs. -/
theorem C2_denied_login_witness :
    plexLogin defaultSettings mainOnlyDb none (some "t") plexEnvDeny =
        (.err 403 "Access denied.", mainOnlyDb) ∧
      plexLogin settingsNoNew mainOnlyDb none (some "t") plexEnvAllow =
        (.err 403 "Access denied.", mainOnlyDb) ∧
      jellyfinLogin settingsNoNew mainOnlyDb none jfBodyNoEmail jfEnvConst =
        (.err 403 "Access denied.", mainOnlyDb, settingsNoNew) :=
  ⟨C2_denied_login_403_table_unchanged.1 defaultSettings mainOnlyDb "t"
      plexEnvDeny plexAccountSample { id := 1, email := "admin@x.com" }
      (by decide) (by decide) (by decide) (by decide),
    C2_denied_login_403_table_unchanged.2.1 settingsNoNew mainOnlyDb "t"
      plexEnvAllow plexAccountSample { id := 1, email := "admin@x.com" }
      (by decide) (by decide) (by decide) (by decide) (by decide),
    C2_denied_login_403_table_unchanged.2.2 settingsNoNew mainOnlyDb
      jfBodyNoEmail jfEnvConst jfAccountSample (by decide) (by decide)
      (by decide) (fun _ _ _ _ => rfl) (by decide) (by decide)⟩

/-! ### C3: the Plex access rule, as an iff -/

/-- The Boolean access condition, as a proposition. -/
theorem plexAccessAllowed_iff (env : PlexEnv) (account : PlexAccount)
    (mainUser : User) (uopt : Option User) :
    plexAccessAllowed env account mainUser uopt = true ↔
      (some account.id = mainUser.plexId ∨
        (∃ u, uopt = some u ∧ u.id = 1 ∧ u.plexId = none) ∨
        (account.email = mainUser.email ∧ mainUser.plexId = none) ∨
        env.checkUserAccess (mainUser.plexToken.getD "") account.id
          = true) := by
  cases uopt with
  | none => simp [plexAccessAllowed, or_assoc]
  | some u => simp [plexAccessAllowed, or_assoc]

/-- A denied sessionful or sessionless non-bootstrap Plex login is a
`403` with the table unchanged. -/
theorem plexLogin_deny_eq (settings : Settings) (db : DB) (s : Option Nat)
    (tok : String) (env : PlexEnv) (account : PlexAccount) (mainUser : User)
    (hget : env.getUser tok = some account)
    (hmain : db.findById 1 = some mainUser)
    (hid : (account.id == 0) = false)
    (hdeny : plexAccessAllowed env account mainUser (plexResolve db s account)
      = false) :
    plexLogin settings db s (some tok) env =
      (.err 403 "Access denied.", db) := by
  have hc := count_ne_zero_of_findById db 1 mainUser hmain
  simp only [plexLogin, hget, hc, Bool.and_false, Bool.false_eq_true,
    if_false, hmain, hid, hdeny]

/-- C3: a non-bootstrap Plex login (user 1 exists, Plex id present,
`newPlexLogin` on) succeeds iff one of the four access conditions holds,
and yields `403 Access denied.` iff none holds. -/
theorem C3_plex_access_rule (settings : Settings) (db : DB) (s : Option Nat)
    (tok : String) (env : PlexEnv) (account : PlexAccount) (mainUser : User)
    (hget : env.getUser tok = some account)
    (hmain : db.findById 1 = some mainUser)
    (hid : (account.id == 0) = false)
    (hflag : settings.main.newPlexLogin = true) :
    ((∃ u, (plexLogin settings db s (some tok) env).1 = .ok u) ↔
      (some account.id = mainUser.plexId ∨
        (∃ u, plexResolve db s account = some u ∧ u.id = 1 ∧
          u.plexId = none) ∨
        (account.email = mainUser.email ∧ mainUser.plexId = none) ∨
        env.checkUserAccess (mainUser.plexToken.getD "") account.id
          = true)) ∧
    ((plexLogin settings db s (some tok) env).1 = .err 403 "Access denied."
      ↔
      ¬(some account.id = mainUser.plexId ∨
        (∃ u, plexResolve db s account = some u ∧ u.id = 1 ∧
          u.plexId = none) ∨
        (account.email = mainUser.email ∧ mainUser.plexId = none) ∨
        env.checkUserAccess (mainUser.plexToken.getD "") account.id
          = true)) := by
  have hc := count_ne_zero_of_findById db 1 mainUser hmain
  have hiff := plexAccessAllowed_iff env account mainUser
    (plexResolve db s account)
  by_cases hD : plexAccessAllowed env account mainUser
      (plexResolve db s account) = true
  · have hDp := hiff.mp hD
    have hok : ∃ u, (plexLogin settings db s (some tok) env).1 = .ok u := by
      cases hres : plexResolve db s account with
      | some u =>
        rw [hres] at hD
        let u' : User :=
          { u with
            plexToken := some tok,
            plexId := some account.id,
            avatar := account.thumb,
            plexUsername := some account.username }
        refine ⟨u', ?_⟩
        simp only [plexLogin, hget, hres, hc, Bool.and_false,
          Bool.false_eq_true, if_false, hmain, hid, hD, if_true]
      | none =>
        rw [hres] at hD
        let u' : User :=
          { id := db.nextId,
            email := account.email,
            plexUsername := some account.username,
            plexId := some account.id,
            plexToken := some account.authToken,
            permissions := settings.main.defaultPermissions,
            avatar := account.thumb }
        refine ⟨u', ?_⟩
        simp only [plexLogin, hget, hres, hc, Bool.and_false,
          Bool.false_eq_true, if_false, hmain, hid, hD, if_true, hflag,
          Bool.not_true]
        rfl
    obtain ⟨u0, hu0⟩ := hok
    refine ⟨⟨fun _ => hDp, fun _ => ⟨u0, hu0⟩⟩, ?_, ?_⟩
    · intro h403
      rw [h403] at hu0
      exact absurd hu0 (by simp)
    · intro hnD
      exact absurd hDp hnD
  · have hDb : plexAccessAllowed env account mainUser
        (plexResolve db s account) = false := by
      simpa using hD
    have h403 := plexLogin_deny_eq settings db s tok env account mainUser
      hget hmain hid hDb
    have hnD : ¬(some account.id = mainUser.plexId ∨
        (∃ u, plexResolve db s account = some u ∧ u.id = 1 ∧
          u.plexId = none) ∨
        (account.email = mainUser.email ∧ mainUser.plexId = none) ∨
        env.checkUserAccess (mainUser.plexToken.getD "") account.id
          = true) := fun hDp => hD (hiff.mpr hDp)
    constructor
    · constructor
      · intro hex
        obtain ⟨u, hu⟩ := hex
        rw [h403] at hu
        exact absurd hu (by simp)
      · intro hDp
        exact absurd hDp hnD
    · exact ⟨fun _ => hnD, fun _ => by rw [h403]⟩

/-- C3 witness: with the shared-server access check granting access, the
fourth condition holds and the concrete login succeeds. -/
theorem C3_plex_access_rule_witness :
    ∃ u, (plexLogin defaultSettings mainOnlyDb none (some "t")
      plexEnvAllow).1 = Outcome.ok u :=
  (C3_plex_access_rule defaultSettings mainOnlyDb none "t" plexEnvAllow
      plexAccountSample { id := 1, email := "admin@x.com" } (by decide)
      (by decide) (by decide) (by decide)).1.mpr
    (Or.inr (Or.inr (Or.inr (by decide))))

/-- C10 witness: after the concrete consumption, a second attempt with
the same guid fails with the invalid-link error. -/
theorem C10_consumed_guid_witness :
    consumeResetPassword resetConsumedDb "g" (some "password2") 999 =
      (.err 500 "Invalid password reset link.", resetConsumedDb) :=
  C10_consumed_guid_never_succeeds resetSampleDb "g" (some "newpassword") 50
    { id := 1, email := "a@x.com", password := some "newpassword",
      resetPasswordGuid := some "g" }
    resetConsumedDb "password2" 999 (by decide) (by decide)

/-! ### C1: empty-table bootstrap per provider -/

/-- C1 (counterexample): on an empty user table, a Jellyfin sign-in with
every field supplied and a successfully authenticating provider does not
create an administrator — it fails with a generic 500, because the route
demands user 1 to exist (`findOneOrFail`) before everything else. -/
theorem C1_jellyfin_empty_table_counterexample :
    jellyfinLogin defaultSettings DB.empty none jfBodyFull jfEnvConst =
      (.err 500 "Something went wrong.", DB.empty, defaultSettings) := by
  rfl

/-- C1 (amended): on an empty user table a local or Plex sign-in creates
the administrator — the sole row, with `id = 1` and `permissions =
ADMIN` — while a Jellyfin sign-in instead fails with a generic 500 and
creates no user. -/
theorem C1_empty_table_bootstrap :
    (∀ (settings : Settings) (tok : String) (env : PlexEnv)
        (account : PlexAccount),
      env.getUser tok = some account →
      ∃ u db', plexLogin settings DB.empty none (some tok) env =
          (.ok u, db') ∧
        u.id = 1 ∧ u.permissions = adminPermission ∧ db'.users = [u]) ∧
    (∀ (settings : Settings) (env : PlexEnv) (email password : String),
      settings.main.localLogin = true → email ≠ "" → password ≠ "" →
      ∃ u db', localLogin settings DB.empty (some email) (some password) env
          = (.ok u, db') ∧
        u.id = 1 ∧ u.permissions = adminPermission ∧ db'.users = [u]) ∧
    (∀ (settings : Settings) (body : JellyfinBody) (env : JellyfinEnv),
      strFalsy body.username = false →
      (settings.jellyfin.hostname == "" && strFalsy body.hostname)
        = false →
      jellyfinLogin settings DB.empty none body env =
        (.err 500 "Something went wrong.", DB.empty, settings)) := by
  refine ⟨?_, ?_, ?_⟩
  · intro settings tok env account hget
    let u : User :=
      { id := 1,
        email := account.email,
        plexUsername := some account.username,
        plexId := some account.id,
        plexToken := some account.authToken,
        permissions := adminPermission,
        avatar := account.thumb }
    refine ⟨u, ⟨[u], 2⟩, ?_, rfl, rfl, rfl⟩
    simp only [plexLogin, hget]
    rfl
  · intro settings env email password hl he hp
    have h2 : (strFalsy (some email) || strFalsy (some password))
        = false := by
      simp [strFalsy, he, hp]
    let u : User :=
      { id := 1,
        email := email,
        password := some password,
        permissions := adminPermission,
        avatar := gravatarUrl email }
    refine ⟨u, ⟨[u], 2⟩, ?_, rfl, rfl, rfl⟩
    simp only [localLogin, hl, Bool.not_true, Bool.false_eq_true, if_false,
      h2]
    rfl
  · intro settings body env husr hg2
    simp only [jellyfinLogin, husr, hg2, Bool.false_eq_true, if_false]
    rfl

/-- C1 witness: the three branches of the amended theorem at concrete
inputs. -/
theorem C1_empty_table_bootstrap_witness :
    (∃ u db', plexLogin defaultSettings DB.empty none (some "t") plexEnvDeny
        = (.ok u, db') ∧
      u.id = 1 ∧ u.permissions = adminPermission ∧ db'.users = [u]) ∧
    (∃ u db', localLogin defaultSettings DB.empty (some "admin@x.com")
          (some "password1") plexEnvDeny = (.ok u, db') ∧
      u.id = 1 ∧ u.permissions = adminPermission ∧ db'.users = [u]) ∧
    jellyfinLogin defaultSettings DB.empty none jfBodyNoEmail jfEnvConst =
      (.err 500 "Something went wrong.", DB.empty, defaultSettings) :=
  ⟨C1_empty_table_bootstrap.1 defaultSettings "t" plexEnvDeny
      plexAccountSample (by decide),
    C1_empty_table_bootstrap.2.1 defaultSettings plexEnvDeny "admin@x.com"
      "password1" (by decide) (by decide) (by decide),
    C1_empty_table_bootstrap.2.2 defaultSettings jfBodyNoEmail jfEnvConst
      (by decide) (by decide)⟩

/-! ### C7: Plex login user resolution -/

/-- C7 (counterexample): the resolution is a single disjunctive query,
first row in table order wins — here the email match (row 1) wins over
the provider-id match (row 2), contradicting provider-id-first
resolution. -/
theorem C7_resolution_counterexample :
    plexResolve plexDualDb none plexAccount42 =
        some { id := 1, email := "a@x.com", plexId := some 99 } ∧
      ({ id := 1, email := "a@x.com", plexId := some 99 } : User).plexId ≠
        some plexAccount42.id ∧
      ({ id := 2, email := "b@x.com", plexId := some 42 } : User) ∈
        plexDualDb.users ∧
      ({ id := 2, email := "b@x.com", plexId := some 42 } : User).plexId =
        some plexAccount42.id := by
  refine ⟨by rfl, by decide, by decide, by decide⟩

/-- C7 (amended): a sessionless Plex login resolves the first user in
table order matching the provider id or the lowercased email — the
resolved user matches one of the two keys and every earlier row matches
neither; no precedence is given to the provider-id key. -/
theorem C7_plex_resolution_first_row_wins (db : DB) (account : PlexAccount)
    (u : User)
    (h : plexResolve db none account = some u) :
    (u.plexId = some account.id ∨ u.email = jsToLower account.email) ∧
      ∃ pre post, db.users = pre ++ u :: post ∧
        ∀ v ∈ pre, ¬(v.plexId = some account.id ∨
          v.email = jsToLower account.email) := by
  have h' : db.users.find? (fun v =>
      v.plexId == some account.id || v.email == jsToLower account.email)
      = some u := h
  rw [List.find?_eq_some] at h'
  obtain ⟨hpu, as, bs, hsplit, hpre⟩ := h'
  constructor
  · simpa using hpu
  · refine ⟨as, bs, hsplit, fun v hv => ?_⟩
    have := hpre v hv
    simpa using this

/-- C7 witness: the amended characterization at the concrete two-user
table. -/
theorem C7_plex_resolution_witness :
    (({ id := 1, email := "a@x.com", plexId := some 99 } : User).plexId =
          some plexAccount42.id ∨
        ({ id := 1, email := "a@x.com", plexId := some 99 } : User).email =
          jsToLower plexAccount42.email) ∧
      ∃ pre post, plexDualDb.users =
          pre ++ ({ id := 1, email := "a@x.com", plexId := some 99 } : User)
            :: post ∧
        ∀ v ∈ pre, ¬(v.plexId = some plexAccount42.id ∨
          v.email = jsToLower plexAccount42.email) :=
  C7_plex_resolution_first_row_wins plexDualDb plexAccount42
    { id := 1, email := "a@x.com", plexId := some 99 } (by rfl)

/-! ### C6: hostname persistence on Jellyfin sign-in -/

/-- C6 (counterexample): a successful Jellyfin login with no configured
hostname and a supplied one — but which creates a new user rather than
resolving an existing one — does not persist the hostname: the returned
settings are unchanged. -/
theorem C6_settings_not_persisted_counterexample :
    jellyfinLogin defaultSettings mainOnlyDb none jfBodyFull jfEnvConst =
        (.ok jfCreatedUser, ⟨mainOnlyDb.users ++ [jfCreatedUser], 3⟩,
          defaultSettings) ∧
      defaultSettings.jellyfin.hostname = "" ∧
      strFalsy jfBodyFull.hostname = false := by
  refine ⟨by rfl, rfl, rfl⟩

/-- A successful sessionless Jellyfin login that resolves an existing
user by `jellyfinUserId` refreshes that user in place; when no hostname
is configured and one is supplied, it also persists the supplied hostname
and the reported server id into the settings. -/
theorem jellyfinLogin_found_eq (settings : Settings) (db : DB)
    (body : JellyfinBody) (env : JellyfinEnv) (account : JellyfinAccount)
    (u : User)
    (husr : strFalsy body.username = false)
    (hg2 : (settings.jellyfin.hostname == "" && strFalsy body.hostname)
      = false)
    (hmain : (db.findById 1).isSome = true)
    (hlog : ∀ h w p d, env.login h w p d = .success account)
    (hfound : db.findWhere (fun v => v.jellyfinUserId == some account.userId)
      = some u) :
    ∃ u2, jellyfinLogin settings db none body env =
        (.ok u2, db.update u2,
          if settings.jellyfin.hostname == "" && !strFalsy body.hostname
          then
            { settings with jellyfin := { settings.jellyfin with
                hostname := body.hostname.getD "",
                serverId := account.serverId } }
          else settings) ∧
      u2.id = u.id ∧ u2.jellyfinUsername = some account.name ∧
      u2.avatar = jellyfinAvatar (jellyfinAvatarHost settings body) account ∧
      u2.jellyfinUserId = some account.userId := by
  obtain ⟨m, hm⟩ := Option.isSome_iff_exists.mp hmain
  have hjid : u.jellyfinUserId = some account.userId := by
    have hfind' : db.users.find?
        (fun v => v.jellyfinUserId == some account.userId) = some u := hfound
    have := List.find?_some hfind'
    simpa using this
  by_cases hun : (u.username == account.name) = true
  · refine ⟨{ u with
        jellyfinAuthToken := some account.accessToken,
        jellyfinDeviceId := some (jellyfinDeviceIdFor db
          (body.username.getD "")),
        avatar := jellyfinAvatar (jellyfinAvatarHost settings body) account,
        jellyfinUsername := some account.name,
        username := "" }, ?_, rfl, rfl, rfl, hjid⟩
    simp only [jellyfinLogin, husr, hg2, Bool.false_eq_true, if_false, hm,
      hlog, hfound]
    simp [hjid, hun]
  · refine ⟨{ u with
        jellyfinAuthToken := some account.accessToken,
        jellyfinDeviceId := some (jellyfinDeviceIdFor db
          (body.username.getD "")),
        avatar := jellyfinAvatar (jellyfinAvatarHost settings body) account,
        jellyfinUsername := some account.name }, ?_, rfl, rfl, rfl, hjid⟩
    simp only [jellyfinLogin, husr, hg2, Bool.false_eq_true, if_false, hm,
      hlog, hfound]
    simp [hjid, hun]

/-- C6 (amended): the hostname/server-id persistence happens exactly on a
successful login that resolves an existing user: with no configured
hostname and a supplied one, the settings returned by such a login carry
the supplied hostname and the provider's reported server id.  (A login
that creates a new user does not persist them.) -/
theorem C6_hostname_persisted_on_found_login (settings : Settings) (db : DB)
    (body : JellyfinBody) (env : JellyfinEnv) (account : JellyfinAccount)
    (u : User)
    (husr : strFalsy body.username = false)
    (hhost : settings.jellyfin.hostname = "")
    (hbody : strFalsy body.hostname = false)
    (hmain : (db.findById 1).isSome = true)
    (hlog : ∀ h w p d, env.login h w p d = .success account)
    (hfound : db.findWhere (fun v => v.jellyfinUserId == some account.userId)
      = some u) :
    ∃ u2 db2, jellyfinLogin settings db none body env =
        (.ok u2, db2,
          { settings with jellyfin := { settings.jellyfin with
              hostname := body.hostname.getD "",
              serverId := account.serverId } }) := by
  have hg2 : (settings.jellyfin.hostname == "" && strFalsy body.hostname)
      = false := by
    simp [hhost, hbody]
  obtain ⟨u2, heq, -, -, -, -⟩ := jellyfinLogin_found_eq settings db body env
    account u husr hg2 hmain hlog hfound
  refine ⟨u2, db.update u2, ?_⟩
  rw [heq]
  have hcond : (settings.jellyfin.hostname == "" && !strFalsy body.hostname)
      = true := by
    simp [hhost, hbody]
  rw [if_pos hcond]

/-- C6 witness: the amended theorem at a concrete linked table. -/
theorem C6_hostname_persisted_witness :
    ∃ u2 db2, jellyfinLogin defaultSettings jfLinkedDb none jfBodyFull
        jfEnvConst =
      (.ok u2, db2,
        { defaultSettings with jellyfin := { defaultSettings.jellyfin with
            hostname := jfBodyFull.hostname.getD "",
            serverId := jfAccountSample.serverId } }) :=
  C6_hostname_persisted_on_found_login defaultSettings jfLinkedDb jfBodyFull
    jfEnvConst jfAccountSample
    { id := 1, email := "admin@x.com", jellyfinUserId := some "abc",
      jellyfinUsername := some "bob",
      jellyfinDeviceId := some "Qk9UX292ZXJzZWVycl9ib2I=" }
    (by decide) (by decide) (by decide) (by decide) (fun _ _ _ _ => rfl)
    (by decide)

/-! ### C8: Jellyfin login idempotence -/

/-- Appending a row to a match-free table makes it the first match. -/
theorem find?_append_of_none (p : User → Bool) (l : List User) (x : User)
    (hn : l.find? p = none) (hp : p x = true) :
    (l ++ [x]).find? p = some x := by
  rw [List.find?_append, hn]
  simp [List.find?_cons_of_pos _ hp]

/-- Appending a row keeps an existing first match successful. -/
theorem find?_isSome_append (p : User → Bool) (l : List User) (x : User)
    (h : (l.find? p).isSome = true) :
    ((l ++ [x]).find? p).isSome = true := by
  rw [List.find?_append]
  cases hfind : l.find? p with
  | none => rw [hfind] at h; simp at h
  | some y => simp

/-- C8: repeating an identical successful sessionless Jellyfin login
(same body, a provider that keeps answering with the same account)
succeeds again, resolves the same local user id, and leaves the user's
avatar and Jellyfin username equal to the values derived from the latest
provider identity. -/
theorem C8_jellyfin_login_idempotent (settings : Settings) (db : DB)
    (body : JellyfinBody) (env : JellyfinEnv) (account : JellyfinAccount)
    (u1 : User) (db1 : DB) (s1 : Settings)
    (hlog : ∀ h w p d, env.login h w p d = .success account)
    (husr : strFalsy body.username = false)
    (h1 : jellyfinLogin settings db none body env = (.ok u1, db1, s1)) :
    ∃ u2 db2 s2, jellyfinLogin s1 db1 none body env = (.ok u2, db2, s2) ∧
      u2.id = u1.id ∧ u2.jellyfinUsername = some account.name ∧
      u2.avatar = jellyfinAvatar (jellyfinAvatarHost s1 body) account := by
  have horig := h1
  simp only [jellyfinLogin, husr, Bool.false_eq_true, if_false] at h1
  split at h1
  · exact absurd h1 (by simp)
  · rename_i hg2
    have hg2' : (settings.jellyfin.hostname == "" && strFalsy body.hostname)
        = false := by
      simpa using hg2
    split at h1
    · exact absurd h1 (by simp)
    · rename_i m hm
      simp only [hlog] at h1
      split at h1
      · rename_i u hfound
        have hmain : (db.findById 1).isSome = true := by rw [hm]; rfl
        obtain ⟨v, heq, hvid, hvname, hvav, hvjid⟩ :=
          jellyfinLogin_found_eq settings db body env account u husr hg2'
            hmain hlog hfound
        have hcomp := heq.symm.trans horig
        simp only [Prod.mk.injEq, Outcome.ok.injEq] at hcomp
        obtain ⟨hv, hdb, hs⟩ := hcomp
        have hg2s1 : (s1.jellyfin.hostname == "" && strFalsy body.hostname)
            = false := by
          rw [← hs]
          cases hbh : strFalsy body.hostname with
          | false => simp
          | true =>
            rw [hbh] at hg2'
            simpa using hg2'
        have hmain1 : (db1.findById 1).isSome = true := by
          rw [← hdb]
          have hbase : (db.users.find? (fun w => w.id == 1)).isSome
              = true := by
            have hm' : db.users.find? (fun w => w.id == 1) = some m := hm
            rw [hm']
            rfl
          exact findById_replaceById_isSome db.users 1 v hbase
        have hpv : (fun w : User => w.jellyfinUserId == some account.userId)
            v = true := by
          simp [hvjid]
        have hfound1 : db1.findWhere
            (fun w => w.jellyfinUserId == some account.userId) = some v := by
          rw [← hdb]
          exact find?_replaceById_found _ db.users u v hfound hvid hpv
        obtain ⟨w, heq2, hwid, hwname, hwav, hwjid⟩ :=
          jellyfinLogin_found_eq s1 db1 body env account v husr hg2s1
            hmain1 hlog hfound1
        refine ⟨w, _, _, heq2, ?_, hwname, hwav⟩
        rw [hwid, hv]
      · rename_i hnomatch
        split at h1
        · exact absurd h1 (by simp)
        · rename_i hflag
          split at h1
          · exact absurd h1 (by simp)
          · rename_i hemail
            simp only [Prod.mk.injEq, Outcome.ok.injEq] at h1
            obtain ⟨hu, hdb, hs⟩ := h1
            have hg2s1 : (s1.jellyfin.hostname == ""
                && strFalsy body.hostname) = false := by
              rw [← hs]
              exact hg2'
            have hmain1 : (db1.findById 1).isSome = true := by
              rw [← hdb]
              apply find?_isSome_append
              have hm' : db.users.find? (fun w => w.id == 1) = some m := hm
              rw [hm']
              rfl
            have hfound1 : db1.findWhere
                (fun w => w.jellyfinUserId == some account.userId)
                = some u1 := by
              rw [← hdb, ← hu]
              exact find?_append_of_none _ db.users _ hnomatch (by simp)
            obtain ⟨w, heq2, hwid, hwname, hwav, hwjid⟩ :=
              jellyfinLogin_found_eq s1 db1 body env account u1 husr hg2s1
                hmain1 hlog hfound1
            exact ⟨w, _, _, heq2, hwid, hwname, hwav⟩

/-- C8 witness: repeating the concrete successful login resolves user 1
again with refreshed provider-derived fields. -/
theorem C8_jellyfin_login_idempotent_witness :
    ∃ u2 db2 s2, jellyfinLogin jfRun1Settings jfRun1Db none jfBodyFull
        jfEnvConst = (.ok u2, db2, s2) ∧
      u2.id = jfRun1User.id ∧
      u2.jellyfinUsername = some jfAccountSample.name ∧
      u2.avatar = jellyfinAvatar (jellyfinAvatarHost jfRun1Settings
        jfBodyFull) jfAccountSample :=
  C8_jellyfin_login_idempotent defaultSettings jfLinkedDb jfBodyFull
    jfEnvConst jfAccountSample jfRun1User jfRun1Db jfRun1Settings
    (fun _ _ _ _ => rfl) (by decide) (by decide)

end Auth
